import Mathlib

/-!
Verification development for the student-dropout-prediction repository.

The embedding models the feature-normalization and risk-scoring pipeline of
`src/app.py` and `src/ml_model.py`:

* Machine floats are modelled by `PyFloat`: either a finite rational value or a
  non-finite value (`inf`, `-inf`, `nan`).  The code never branches on which
  non-finite value is present, so they are collapsed into one constructor.
* A CSV cell (after `pd.read_csv(path, dtype=str)`) is modelled by `Cell`:
  either a pandas missing value (`NaN`, produced for empty cells and textual
  NA markers such as `"NaN"`, for which `pd.isna` is true), or a raw text cell
  carrying what `str(val)` returns together with the behaviour of `float(val)`
  on it (`FloatParse`: a finite value, a non-finite value such as for the text
  `"inf"`, or a `ValueError`).
* The trained scaler/classifier artifacts are opaque: scoring functions are
  parameterized by an abstract class-probability function
  `proba : List ℚ → List ℚ`.  The scaler's input validation (fitted on the 34
  training columns of `generate_dataset.py` / `train_model.py`) is modelled
  explicitly: non-finite entries and shape mismatches raise before any
  probability is produced.
* Database state is a record of in-memory lists (students, notifications,
  users); timestamps, autoincrement primary keys and the read flag are not
  claim-relevant and are omitted.
-/

/-- A Python float value: finite (with its exact rational value) or
non-finite (`inf`, `-inf` or `nan`). -/
inductive PyFloat where
  | fin (q : ℚ)
  | nonfin
  deriving DecidableEq, Repr

/-- The behaviour of Python's `float(text)` on a raw text cell:
it returns a finite value, returns a non-finite value (texts like `"inf"`,
`"Infinity"`, `"nan"` passed raw), or raises `ValueError` (texts like `""`
or `"abc"`). -/
inductive FloatParse where
  | fin (q : ℚ)
  | nonfin
  | err
  deriving DecidableEq, Repr

/-- A cell of a row as seen by `_row_to_features` / `_csv_to_student_fields`
after `pd.read_csv(path, dtype=str)`:
`na` is a pandas missing value (empty cell or a default NA marker such as
`"NaN"`; `pd.isna` is true on it); `txt s p` is a raw text cell whose `str()`
rendering is `s` and whose `float()` behaviour is `p`. -/
inductive Cell where
  | na
  | txt (s : String) (p : FloatParse)
  deriving DecidableEq, Repr

/-- One input row: an association list from column headers to cells
(`row[k]` / `row.get(k, d)` take the first binding of `k`). -/
abbrev Row := List (String × Cell)

/-- Model of `DropoutPredictor.feature_names` from `src/ml_model.py` (34 entries,
including the source's `'Nacionality'` spelling). -/
def feature_names : List String :=
  ["Marital status", "Application mode", "Application order", "Course",
   "Daytime/evening attendance", "Previous qualification", "Nacionality",
   "Mother's qualification", "Father's qualification", "Mother's occupation",
   "Father's occupation", "Displaced", "Educational special needs", "Debtor",
   "Tuition fees up to date", "Gender", "Scholarship holder", "Age at enrollment",
   "International", "Curricular units 1st sem (credited)",
   "Curricular units 1st sem (enrolled)", "Curricular units 1st sem (evaluations)",
   "Curricular units 1st sem (approved)", "Curricular units 1st sem (grade)",
   "Curricular units 1st sem (without evaluations)", "Curricular units 2nd sem (credited)",
   "Curricular units 2nd sem (enrolled)", "Curricular units 2nd sem (evaluations)",
   "Curricular units 2nd sem (approved)", "Curricular units 2nd sem (grade)",
   "Curricular units 2nd sem (without evaluations)", "Unemployment rate",
   "Inflation rate", "GDP"]

/-- Number of features the persisted scaler and classifier were fitted on:
the 34 non-`Target` columns of the generated dataset
(`generate_dataset.py`, `train_model.py`). -/
def nFeaturesIn : ℕ := 34

/-- The threshold logic of `DropoutPredictor.predict` (`src/ml_model.py`
lines 56-61): `>= 0.7` is High, else `>= 0.4` is Medium, else Low. -/
def risk_category_of (dropout_prob : ℚ) : String :=
  if dropout_prob ≥ 7/10 then "High"
  else if dropout_prob ≥ 4/10 then "Medium"
  else "Low"

/-- Errors surfaced by `DropoutPredictor.predict` before a score is produced:
`invalidShape` is the scaler's feature-count validation error (the spec's
`InvalidInput`); `nonFinite` is the validation error raised on `inf`/`nan`
entries (by `scaler.transform` for `inf`, by the random forest's
`predict_proba` for `nan` — collapsed into one constructor). -/
inductive PredictErr where
  | invalidShape
  | nonFinite
  deriving DecidableEq, Repr

/-- Extract the finite values of a vector; `none` if any entry is non-finite. -/
def finiteVals : List PyFloat → Option (List ℚ)
  | [] => some []
  | PyFloat.fin q :: rest => (finiteVals rest).map (fun qs => q :: qs)
  | PyFloat.nonfin :: _ => none

/-- Model of `DropoutPredictor.predict` (`src/ml_model.py` lines 39-63), parameterized
by the opaque classifier `proba` (class-probability distribution of the scaled
vector; scaling is folded into `proba` since the scaler is opaque too).
Validation performed by the sklearn pipeline: non-finite entries raise, and a
vector whose length differs from the 34 fitted features raises.  On success,
`dropout_prob` is `probabilities[1] if len(probabilities) > 1 else 0` and the
category comes from the fixed thresholds. -/
def predict (proba : List ℚ → List ℚ) (features : List PyFloat) :
    Except PredictErr (ℚ × String) :=
  match finiteVals features with
  | none => .error .nonFinite
  | some qs =>
    if qs.length = nFeaturesIn then
      let probabilities := proba qs
      let dropout_prob := probabilities.getD 1 0
      .ok (dropout_prob, risk_category_of dropout_prob)
    else .error .invalidShape

/-- The `defaults` table of `_row_to_features` (`src/app.py` lines 574-609):
header name and default value, in model feature order. -/
def row_defaults : List (String × ℚ) :=
  [("Marital status", 0), ("Application mode", 0), ("Application order", 0),
   ("Course", 0), ("Daytime/evening attendance", 0), ("Previous qualification", 0),
   ("Nacionality", 0), ("Mother's qualification", 0), ("Father's qualification", 0),
   ("Mother's occupation", 0), ("Father's occupation", 0), ("Displaced", 0),
   ("Educational special needs", 0), ("Debtor", 0), ("Tuition fees up to date", 1),
   ("Gender", 0), ("Scholarship holder", 0), ("Age at enrollment", 18),
   ("International", 0), ("Curricular units 1st sem (credited)", 0),
   ("Curricular units 1st sem (enrolled)", 0), ("Curricular units 1st sem (evaluations)", 0),
   ("Curricular units 1st sem (approved)", 0), ("Curricular units 1st sem (grade)", 0),
   ("Curricular units 1st sem (without evaluations)", 0), ("Curricular units 2nd sem (credited)", 0),
   ("Curricular units 2nd sem (enrolled)", 0), ("Curricular units 2nd sem (evaluations)", 0),
   ("Curricular units 2nd sem (approved)", 0), ("Curricular units 2nd sem (grade)", 0),
   ("Curricular units 2nd sem (without evaluations)", 0), ("Unemployment rate", 0),
   ("Inflation rate", 0), ("GDP", 0)]

/-- One iteration of the `_row_to_features` loop body (`src/app.py` lines
613-621) for header `k` with default `d`:
`val = row[k] if k in row else d`; then `d if pd.isna(val) or val is None
else float(val)`; a `ValueError` from `float` is caught and gives `d`. -/
def featureOfCell (row : Row) (k : String) (d : ℚ) : PyFloat :=
  match row.lookup k with
  | none => .fin d
  | some Cell.na => .fin d
  | some (Cell.txt _ (FloatParse.fin q)) => .fin q
  | some (Cell.txt _ FloatParse.nonfin) => .nonfin
  | some (Cell.txt _ FloatParse.err) => .fin d

/-- Model of `_row_to_features` (`src/app.py` lines 571-623): build the feature list
in the exact order of the `defaults` table. -/
def row_to_features (row : Row) : List PyFloat :=
  row_defaults.map (fun kd => featureOfCell row kd.1 kd.2)

/-- True exactly for a cell whose text parses to a non-finite float. -/
def cellNonfin : Cell → Bool
  | Cell.txt _ FloatParse.nonfin => true
  | _ => false

/-! Mapping `_csv_to_student_fields` (`src/app.py` lines 509-569). -/

/-- Python's `int(...)` truncation toward zero on an exact rational. -/
def truncToZero (q : ℚ) : ℤ :=
  if q < 0 then -(Int.floor (-q)) else Int.floor q

/-- The safe conversion `to_int(val, default)` (`src/app.py` lines 516-522):
`default` if `pd.isna(val)`, else `int(float(val))`; every exception
(`ValueError` from `float`, `OverflowError`/`ValueError` from `int` on a
non-finite float) is caught and gives `default`. -/
def to_int (c : Cell) (dflt : ℤ) : ℤ :=
  match c with
  | .na => dflt
  | .txt _ (.fin q) => truncToZero q
  | .txt _ .nonfin => dflt
  | .txt _ .err => dflt

/-- The safe conversion `to_float(val, default)` (`src/app.py` lines 524-530):
`default` if `pd.isna(val)`, else `float(val)`; a `ValueError` gives
`default`.  A text such as `"inf"` parses successfully to a non-finite
float and is returned as-is. -/
def to_float (c : Cell) (dflt : ℚ) : PyFloat :=
  match c with
  | .na => .fin dflt
  | .txt _ (.fin q) => .fin q
  | .txt _ .nonfin => .nonfin
  | .txt _ .err => .fin dflt

/-- Composition `to_int(g(k, gdflt), tdflt)` where `g = lambda k, d=0: row.get(k, d)`:
a missing column yields the clean numeric default `gdflt` (on which
`int(float(.))` is the identity); a present cell goes through `to_int` with
its own default `tdflt`. -/
def intField (row : Row) (k : String) (gdflt tdflt : ℤ) : ℤ :=
  match row.lookup k with
  | none => gdflt
  | some c => to_int c tdflt

/-- Composition `to_float(g(k, 0))`: a missing column yields the numeric `row.get`
default; a present cell goes through `to_float` with its default `0.0`. -/
def floatField (row : Row) (k : String) (gdflt : ℚ) : PyFloat :=
  match row.lookup k with
  | none => .fin gdflt
  | some c => to_float c 0

/-- Composition `str(row.get(k, dflt))` for the identity columns: a present text cell
renders as itself, a present pandas-NA cell renders as `"nan"`
(`str(np.nan)`), a missing column yields the string default. -/
def strField (row : Row) (k : String) (dflt : String) : String :=
  match row.lookup k with
  | some Cell.na => "nan"
  | some (Cell.txt s _) => s
  | none => dflt

/-- Decimal digit character, `chr(48 + d)` for `d < 10`. -/
def digitChar (d : ℕ) : Char := Char.ofNat (48 + d)

/-- Decimal digit characters of `n`, most significant first, with `fuel`
bounding the recursion depth (structural recursion so the definition
computes; `fuel = n` always suffices).  Empty for `n = 0`. -/
def natCharsAux : ℕ → ℕ → List Char
  | 0, _ => []
  | fuel + 1, n =>
    if n = 0 then [] else natCharsAux fuel (n / 10) ++ [digitChar (n % 10)]

/-- The decimal digit characters of `n`, most significant first
(empty for `0`; the identity-synthesis path only renders `n ≥ 1`). -/
def natChars (n : ℕ) : List Char := natCharsAux n n

/-- Python's `str(n)` decimal rendering of a natural number. -/
def natStr (n : ℕ) : String := if n = 0 then "0" else String.mk (natChars n)

/-- Decimal decoding of a digit string with accumulator `acc` (verification
helper, used to show the synthesized identifiers are injective). -/
def decodeDigits : ℕ → List Char → ℕ
  | acc, [] => acc
  | acc, c :: rest => decodeDigits (10 * acc + (c.toNat - 48)) rest

/-- Left-pad with `'0'` to width `w`, as in the format spec `:05d`. -/
def zfill (w : ℕ) (l : List Char) : List Char :=
  List.replicate (w - l.length) '0' ++ l

/-- The synthesized placeholder identifier `f"CSV{int(row.name)+1:05d}"`
(`src/app.py` line 533) for the row at 0-based ordinal `idx`. -/
def csv_default_id (idx : ℕ) : String :=
  String.mk ('C' :: 'S' :: 'V' :: zfill 5 (natChars (idx + 1)))

/-- The synthesized placeholder display name `f"Student {int(row.name)+1}"`
(`src/app.py` line 534). -/
def csv_default_name (idx : ℕ) : String := "Student " ++ natStr (idx + 1)

/-- The dictionary returned by `_csv_to_student_fields` (`src/app.py` lines
532-569), as a record.  Omitted relative to the `Student` model: `user_id`,
timestamps and the database primary key, which no claim touches. -/
structure StudentFields where
  student_id : String
  name : String
  marital_status : ℤ
  application_mode : ℤ
  application_order : ℤ
  course : ℤ
  daytime_evening_attendance : ℤ
  previous_qualification : ℤ
  nationality : ℤ
  mothers_qualification : ℤ
  fathers_qualification : ℤ
  mothers_occupation : ℤ
  fathers_occupation : ℤ
  displaced : ℤ
  educational_special_needs : ℤ
  debtor : ℤ
  tuition_fees_up_to_date : ℤ
  gender : ℤ
  scholarship_holder : ℤ
  age_at_enrollment : ℤ
  international : ℤ
  curricular_units_1st_sem_credited : PyFloat
  curricular_units_1st_sem_enrolled : PyFloat
  curricular_units_1st_sem_evaluations : PyFloat
  curricular_units_1st_sem_approved : PyFloat
  curricular_units_1st_sem_grade : PyFloat
  curricular_units_1st_sem_without_evaluations : PyFloat
  curricular_units_2nd_sem_credited : PyFloat
  curricular_units_2nd_sem_enrolled : PyFloat
  curricular_units_2nd_sem_evaluations : PyFloat
  curricular_units_2nd_sem_approved : PyFloat
  curricular_units_2nd_sem_grade : PyFloat
  curricular_units_2nd_sem_without_evaluations : PyFloat
  unemployment_rate : PyFloat
  inflation_rate : PyFloat
  gdp : PyFloat

/-- Model of `_csv_to_student_fields(row)` for the row at 0-based ordinal `idx`
(`row.name` is the pandas range index of the freshly read CSV). -/
def csv_to_student_fields (idx : ℕ) (row : Row) : StudentFields where
  student_id := strField row "student_id" (csv_default_id idx)
  name := strField row "name" (csv_default_name idx)
  marital_status := intField row "Marital status" 0 0
  application_mode := intField row "Application mode" 0 0
  application_order := intField row "Application order" 0 0
  course := intField row "Course" 0 0
  daytime_evening_attendance := intField row "Daytime/evening attendance" 0 0
  previous_qualification := intField row "Previous qualification" 0 0
  nationality := intField row "Nacionality" 0 0
  mothers_qualification := intField row "Mother's qualification" 0 0
  fathers_qualification := intField row "Father's qualification" 0 0
  mothers_occupation := intField row "Mother's occupation" 0 0
  fathers_occupation := intField row "Father's occupation" 0 0
  displaced := intField row "Displaced" 0 0
  educational_special_needs := intField row "Educational special needs" 0 0
  debtor := intField row "Debtor" 0 0
  tuition_fees_up_to_date := intField row "Tuition fees up to date" 1 0
  gender := intField row "Gender" 0 0
  scholarship_holder := intField row "Scholarship holder" 0 0
  age_at_enrollment := intField row "Age at enrollment" 18 18
  international := intField row "International" 0 0
  curricular_units_1st_sem_credited := floatField row "Curricular units 1st sem (credited)" 0
  curricular_units_1st_sem_enrolled := floatField row "Curricular units 1st sem (enrolled)" 0
  curricular_units_1st_sem_evaluations := floatField row "Curricular units 1st sem (evaluations)" 0
  curricular_units_1st_sem_approved := floatField row "Curricular units 1st sem (approved)" 0
  curricular_units_1st_sem_grade := floatField row "Curricular units 1st sem (grade)" 0
  curricular_units_1st_sem_without_evaluations :=
    floatField row "Curricular units 1st sem (without evaluations)" 0
  curricular_units_2nd_sem_credited := floatField row "Curricular units 2nd sem (credited)" 0
  curricular_units_2nd_sem_enrolled := floatField row "Curricular units 2nd sem (enrolled)" 0
  curricular_units_2nd_sem_evaluations := floatField row "Curricular units 2nd sem (evaluations)" 0
  curricular_units_2nd_sem_approved := floatField row "Curricular units 2nd sem (approved)" 0
  curricular_units_2nd_sem_grade := floatField row "Curricular units 2nd sem (grade)" 0
  curricular_units_2nd_sem_without_evaluations :=
    floatField row "Curricular units 2nd sem (without evaluations)" 0
  unemployment_rate := floatField row "Unemployment rate" 0
  inflation_rate := floatField row "Inflation rate" 0
  gdp := floatField row "GDP" 0

/-! Persisted state and the batch import (`src/app.py` lines 625-747). -/

/-- A persisted `Student` row: the mapped fields plus the prediction results
written alongside them (`fields.update({...})`, `src/app.py` lines 698-702).
The `last_prediction_date` timestamp is omitted. -/
structure StudentRec extends StudentFields where
  dropout_risk_score : ℚ
  risk_category : String

/-- A `User` account (only the columns the pipeline reads). -/
structure UserRec where
  id : ℕ
  username : String
  role : String
  deriving DecidableEq, Repr

/-- A `Notification` row as created by the alert path (`src/app.py` lines
356-361).  The student foreign key, read flag and timestamp are omitted; the
notification references the student through its templated message, which
embeds the student's name and identifier. -/
structure Notification where
  counselor_id : ℕ
  message : String
  notification_type : String
  deriving DecidableEq, Repr

/-- The persisted collections the pipeline touches. -/
structure DBState where
  students : List StudentRec
  notifications : List Notification
  users : List UserRec

/-- Query `User.query.filter_by(role='counselor').all()`. -/
def counselors (st : DBState) : List UserRec :=
  st.users.filter (fun u => u.role == "counselor")

/-- One preview entry of the import response (`results.append({...})`,
`src/app.py` lines 709-714). -/
structure Preview where
  student_id : String
  name : String
  risk_score : ℚ
  risk_category : String
  deriving DecidableEq, Repr

/-- The `summary` object of the import response (`src/app.py` lines 722-735;
file name and dates omitted). -/
structure ImportSummary where
  created : ℕ
  updated : ℕ
  total : ℕ
  replaced_existing : Bool
  cleared_count : ℕ
  total_in_db : ℕ
  results : List Preview

/-- The per-row loop of `import_csv` (`src/app.py` lines 691-714) over rows
paired with their 0-based ordinal: score the mapped features, build the
student fields, and accumulate a new record.  The first scoring exception
aborts the whole batch. -/
def importLoop (proba : List ℚ → List ℚ) :
    List (ℕ × Row) → Except PredictErr (List StudentRec)
  | [] => .ok []
  | (idx, row) :: rest =>
    match predict proba (row_to_features row) with
    | .error e => .error e
    | .ok (risk_score, risk_category) =>
      match importLoop proba rest with
      | .error e => .error e
      | .ok recs =>
        .ok ({ toStudentFields := csv_to_student_fields idx row,
               dropout_risk_score := risk_score,
               risk_category := risk_category } :: recs)

/-- Model of `import_csv` (`src/app.py` lines 625-747) on an already-parsed list of
rows: the entire student collection is deleted and committed first
(lines 662-676; the `replace_existing` form flag is read but ignored), then
every row is scored and accumulated as a new record, and all new records are
committed together.  A scoring exception triggers `db.session.rollback()`,
which discards the uncommitted inserts but not the already-committed delete,
so the error state has an empty student collection.  User accounts and
notifications are untouched either way. -/
def import_csv (proba : List ℚ → List ℚ) (st : DBState) (rows : List Row) :
    DBState × Except PredictErr ImportSummary :=
  let existing_count := st.students.length
  let cleared : DBState := { st with students := [] }
  match importLoop proba rows.enum with
  | .error e => (cleared, .error e)
  | .ok recs =>
    ({ cleared with students := recs },
     .ok { created := recs.length
           updated := 0
           total := recs.length
           replaced_existing := true
           cleared_count := existing_count
           total_in_db := recs.length
           results := (recs.map (fun r =>
             { student_id := r.student_id, name := r.name,
               risk_score := r.dropout_risk_score,
               risk_category := r.risk_category : Preview })).take 50 })

/-! The single-record prediction route (`src/app.py` lines 295-373). -/

/-- The JSON payload of `/api/predict`: the numeric feature entries (JSON
numbers are finite rationals) and the optional `student_id` entry. -/
structure ApiRequest where
  fields : List (String × ℚ)
  student_id : Option String

/-- Lookup `data.get(k, d)` on the numeric payload. -/
def jget (data : List (String × ℚ)) (k : String) (d : ℚ) : ℚ :=
  (data.lookup k).getD d

/-- The snake-case API keys read by `predict_dropout`, in order
(`src/app.py` lines 302-337). -/
def api_keys : List String :=
  ["marital_status", "application_mode", "application_order", "course",
   "daytime_evening_attendance", "previous_qualification", "nationality",
   "mothers_qualification", "fathers_qualification", "mothers_occupation",
   "fathers_occupation", "displaced", "educational_special_needs", "debtor",
   "tuition_fees_up_to_date", "gender", "scholarship_holder",
   "age_at_enrollment", "international", "curricular_units_1st_sem_credited",
   "curricular_units_1st_sem_enrolled", "curricular_units_1st_sem_evaluations",
   "curricular_units_1st_sem_approved", "curricular_units_1st_sem_grade",
   "curricular_units_1st_sem_without_evaluations",
   "curricular_units_2nd_sem_credited", "curricular_units_2nd_sem_enrolled",
   "curricular_units_2nd_sem_evaluations", "curricular_units_2nd_sem_approved",
   "curricular_units_2nd_sem_grade",
   "curricular_units_2nd_sem_without_evaluations", "unemployment_rate",
   "inflation_rate", "gdp"]

/-- The per-key defaults of the `data.get(key, default)` calls in
`predict_dropout`, paired with their keys in read order. -/
def api_defaults : List (String × ℚ) :=
  api_keys.map (fun k =>
    (k, if k == "tuition_fees_up_to_date" then 1
        else if k == "age_at_enrollment" then 18 else 0))

/-- The `features` list built by `predict_dropout` (`src/app.py` lines
302-337): one `data.get(key, default)` per API key, in order. -/
def api_features (data : List (String × ℚ)) : List ℚ :=
  api_defaults.map (fun kd => jget data kd.1 kd.2)

/-- The JSON body answered by `/api/predict`. -/
inductive ApiResponse where
  | success (risk_score : ℚ) (risk_category : String)
  | failure (e : PredictErr)
  deriving DecidableEq, Repr

/-- Query `Student.query.filter_by(student_id=sid).first()`. -/
def findStudent (st : DBState) (sid : String) : Option StudentRec :=
  st.students.find? (fun s => s.student_id == sid)

/-- Mutating the one `Student` object returned by `.first()`: replace the
first matching element of the collection. -/
def updateFirst (p : StudentRec → Bool) (f : StudentRec → StudentRec) :
    List StudentRec → List StudentRec
  | [] => []
  | s :: rest => if p s then f s :: rest else s :: updateFirst p f rest

/-- The notification created for one counselor (`src/app.py` lines 356-361),
with the templated message referencing the student's name and identifier. -/
def mkNotification (s : StudentRec) (c : UserRec) : Notification where
  counselor_id := c.id
  message := "Student " ++ s.name ++ " (" ++ s.student_id ++
    ") is at HIGH risk of dropout. Immediate intervention recommended."
  notification_type := "high_risk_alert"

/-- Model of `predict_dropout` (`src/app.py` lines 295-373): build the feature list
from the JSON payload, predict, and — only when a truthy `student_id` is
given and names a persisted student — store the score on that student and,
when the category is High, fan a notification out to every counselor.  An
exception from `predict` is caught and answered as a failure with no state
already dirtied. -/
def predict_dropout (proba : List ℚ → List ℚ) (st : DBState)
    (req : ApiRequest) : DBState × ApiResponse :=
  let features := (api_features req.fields).map PyFloat.fin
  match predict proba features with
  | .error e => (st, .failure e)
  | .ok (risk_score, risk_category) =>
    let st' :=
      match req.student_id with
      | none => st
      | some sid =>
        if sid == "" then st
        else
          match findStudent st sid with
          | none => st
          | some student =>
            let newStudents :=
              updateFirst (fun s => s.student_id == sid)
                (fun s => { s with dropout_risk_score := risk_score,
                                   risk_category := risk_category })
                st.students
            let upd : DBState := { st with students := newStudents }
            if risk_category == "High" then
              let newNotifs := upd.notifications ++
                (counselors st).map (mkNotification student)
              { upd with notifications := newNotifs }
            else upd
    (st', .success risk_score risk_category)

/-! Concrete instances used by the witnesses and counterexamples. -/

/-- A classifier stub whose dropout-class probability is always 1. -/
def probaHigh : List ℚ → List ℚ := fun _ => [0, 1]

/-- A persisted student record as produced by mapping one all-default row. -/
def sampleStudent : StudentRec where
  toStudentFields := csv_to_student_fields 0 []
  dropout_risk_score := 0
  risk_category := "Low"

/-- A small database: one student, one counselor account, one admin. -/
def stOne : DBState where
  students := [sampleStudent]
  notifications := []
  users := [{ id := 1, username := "counselor", role := "counselor" },
            { id := 2, username := "admin", role := "admin" }]

/-- The record created for the all-default row at ordinal `idx` when the
classifier returns dropout probability 1. -/
def recHigh (idx : ℕ) : StudentRec where
  toStudentFields := csv_to_student_fields idx []
  dropout_risk_score := 1
  risk_category := "High"

/-- The import summary for two empty rows imported over `stOne` under
`probaHigh`. -/
def summaryTwo : ImportSummary where
  created := 2
  updated := 0
  total := 2
  replaced_existing := true
  cleared_count := 1
  total_in_db := 2
  results := [{ student_id := "CSV00001", name := "Student 1",
                risk_score := 1, risk_category := "High" },
              { student_id := "CSV00002", name := "Student 2",
                risk_score := 1, risk_category := "High" }]

/-! Helper lemmas. -/

theorem row_to_features_length (row : Row) :
    (row_to_features row).length = feature_names.length := by
  simp [row_to_features, row_defaults, feature_names]

theorem finiteVals_map_fin (qs : List ℚ) : finiteVals (qs.map PyFloat.fin) = some qs := by
  induction qs with
  | nil => rfl
  | cons q rest ih => simp [finiteVals, ih]

theorem feature_names_length : feature_names.length = nFeaturesIn := by
  simp [feature_names, nFeaturesIn]

theorem predict_map_fin (proba : List ℚ → List ℚ) (qs : List ℚ)
    (h : qs.length = nFeaturesIn) :
    predict proba (qs.map PyFloat.fin) =
      Except.ok ((proba qs).getD 1 0, risk_category_of ((proba qs).getD 1 0)) := by
  simp [predict, finiteVals_map_fin, h]

/-- C1: For every probability `p` returned by the model, the category is
assigned by fixed inclusive-lower-bound thresholds: `p ≥ 0.70` is High,
`0.40 ≤ p < 0.70` is Medium, otherwise Low; in particular `p = 0.70` yields
High, `p = 0.4` yields Medium and `p = 0.3999` yields Low. -/
theorem predict_threshold_categories (proba : List ℚ → List ℚ)
    (features : List PyFloat) (p : ℚ) (c : String)
    (h : predict proba features = Except.ok (p, c)) :
    (7/10 ≤ p → c = "High") ∧
    (4/10 ≤ p ∧ p < 7/10 → c = "Medium") ∧
    (p < 4/10 → c = "Low") ∧
    risk_category_of (7/10) = "High" ∧
    risk_category_of (4/10) = "Medium" ∧
    risk_category_of (3999/10000) = "Low" := by
  have hc : c = risk_category_of p := by
    unfold predict at h
    cases hfv : finiteVals features with
    | none => rw [hfv] at h; exact absurd h (by simp)
    | some qs =>
      rw [hfv] at h
      by_cases hl : qs.length = nFeaturesIn
      · simp only [hl, if_true] at h
        obtain ⟨hp, hcat⟩ := Prod.mk.injEq .. ▸ (Except.ok.injEq .. ▸ h)
        rw [← hcat, ← hp]
      · simp [hl] at h
  subst hc
  refine ⟨?_, ?_, ?_, by norm_num [risk_category_of], by norm_num [risk_category_of],
    by norm_num [risk_category_of]⟩
  · intro h1; simp [risk_category_of, h1]
  · rintro ⟨h1, h2⟩
    have : ¬ (7/10 ≤ p) := by linarith
    simp [risk_category_of, this, h1]
  · intro h1
    have h2 : ¬ (7/10 ≤ p) := by linarith
    have h3 : ¬ (4/10 ≤ p) := by linarith
    simp [risk_category_of, h2, h3]

theorem predict_threshold_categories_witness :
    (7/10 ≤ (7/10 : ℚ) → "High" = "High") ∧
    (4/10 ≤ (7/10 : ℚ) ∧ (7/10 : ℚ) < 7/10 → "High" = "Medium") ∧
    ((7/10 : ℚ) < 4/10 → "High" = "Low") ∧
    risk_category_of (7/10) = "High" ∧
    risk_category_of (4/10) = "Medium" ∧
    risk_category_of (3999/10000) = "Low" :=
  predict_threshold_categories (fun _ => [3/10, 7/10])
    ((List.replicate 34 (0 : ℚ)).map PyFloat.fin) (7/10) "High" (by
      have h := predict_map_fin (fun _ => [3/10, 7/10]) (List.replicate 34 0)
        (by simp [nFeaturesIn])
      norm_num [risk_category_of, List.getD] at h
      exact h)

/-- C8: A vector whose length differs from the FeatureSchema length fails
with the shape-validation (`InvalidInput`) error, and a vector of the
correct length never fails on out-of-range (finite) values: it always
produces a score and category. -/
theorem predict_shape_validation (proba : List ℚ → List ℚ) (qs : List ℚ) :
    (qs.length ≠ feature_names.length →
      predict proba (qs.map PyFloat.fin) = Except.error PredictErr.invalidShape) ∧
    (qs.length = feature_names.length →
      predict proba (qs.map PyFloat.fin) =
        Except.ok ((proba qs).getD 1 0, risk_category_of ((proba qs).getD 1 0))) := by
  rw [feature_names_length]
  constructor
  · intro hne
    simp [predict, finiteVals_map_fin, hne]
  · intro heq
    exact predict_map_fin proba qs heq

theorem predict_shape_validation_witness :
    predict (fun _ => [3/10, 7/10]) (([5] : List ℚ).map PyFloat.fin) =
      Except.error PredictErr.invalidShape ∧
    predict (fun _ => [3/10, 7/10]) ((List.replicate 34 (2 : ℚ)).map PyFloat.fin) =
      Except.ok (7/10, "High") := by
  constructor
  · exact (predict_shape_validation (fun _ => [3/10, 7/10]) [5]).1 (by simp [feature_names])
  · have h := (predict_shape_validation (fun _ => [3/10, 7/10])
      (List.replicate 34 2)).2 (by simp [feature_names])
    norm_num [risk_category_of, List.getD] at h
    exact h

/-- C4 counterexample: the feature schema does not have 33 fields — it has
34 (`DropoutPredictor.feature_names` lists 34 names, and `predict_dropout`
reads 34 snake-case keys). -/
theorem feature_schema_not_33 :
    feature_names.length ≠ 33 ∧ api_keys.length ≠ 33 := by
  constructor <;> decide

/-- C4 amended: the feature schema consists of exactly 34 named fields, the
single-record prediction request reads exactly 34 snake-case API keys (one
per schema field, each individually defaulted when absent), and the feature
vector built from any request has exactly the schema length. -/
theorem feature_schema_34 :
    feature_names.length = 34 ∧ api_keys.length = 34 ∧
    (∀ data, (api_features data).length = feature_names.length) ∧
    api_features [] =
      [0, 0, 0, 0, 0, 0, 0, 0, 0, 0, 0, 0, 0, 0, 1, 0, 0, 18,
       0, 0, 0, 0, 0, 0, 0, 0, 0, 0, 0, 0, 0, 0, 0, 0] := by
  refine ⟨by decide, by decide, ?_, by decide⟩
  intro data
  simp [api_features, api_defaults, api_keys, feature_names]

/-- True exactly for a cell whose text parses to a non-finite float. -/
theorem lookup_mem {row : Row} {k : String} {c : Cell}
    (h : row.lookup k = some c) : (k, c) ∈ row := by
  induction row with
  | nil => simp [List.lookup] at h
  | cons kc rest ih =>
    obtain ⟨k', c'⟩ := kc
    cases he : (k == k') with
    | true =>
      simp only [List.lookup, he] at h
      obtain rfl : c' = c := by simpa using h
      obtain rfl : k = k' := by simpa using he
      exact List.mem_cons_self _ _
    | false =>
      simp only [List.lookup, he] at h
      exact List.mem_cons_of_mem _ (ih h)

/-- C2 counterexample: `_row_to_features` is not free of non-finite entries.
A cell whose text Python's `float` parses to a non-finite value — e.g. the
text `"inf"`, which is not a pandas NA marker and so reaches the mapper as
text — is passed through into the feature vector instead of being replaced
by the schema default. -/
theorem row_mapper_nonfinite_counterexample :
    PyFloat.nonfin ∈ row_to_features [("GDP", Cell.txt "inf" FloatParse.nonfin)] := by
  decide

/-- C2 amended: for every input record, `_row_to_features` never fails and
returns a vector of exactly FeatureSchema length; cells that are missing,
pandas-NA (empty strings and textual NaN markers after CSV reading), or not
parseable as a number are substituted by the field's schema default; and the
vector has no non-finite entries provided no cell text parses to a
non-finite float. -/
theorem row_mapper_totality (row : Row)
    (h : row.all (fun kc => !cellNonfin kc.2) = true) :
    (row_to_features row).length = feature_names.length ∧
    (∀ v ∈ row_to_features row, ∃ q, v = PyFloat.fin q) ∧
    (∀ k d, (row.lookup k = none ∨ row.lookup k = some Cell.na ∨
        (∃ s, row.lookup k = some (Cell.txt s FloatParse.err))) →
      featureOfCell row k d = PyFloat.fin d) := by
  refine ⟨row_to_features_length row, ?_, ?_⟩
  · intro v hv
    obtain ⟨kd, _, rfl⟩ := List.mem_map.mp hv
    cases hl : row.lookup kd.1 with
    | none => exact ⟨kd.2, by simp [featureOfCell, hl]⟩
    | some c =>
      cases c with
      | na => exact ⟨kd.2, by simp [featureOfCell, hl]⟩
      | txt s p =>
        cases p with
        | fin q => exact ⟨q, by simp [featureOfCell, hl]⟩
        | err => exact ⟨kd.2, by simp [featureOfCell, hl]⟩
        | nonfin =>
          have hmem := lookup_mem hl
          have := List.all_eq_true.mp h _ hmem
          simp [cellNonfin] at this
  · rintro k d (hl | hl | ⟨s, hl⟩) <;> simp [featureOfCell, hl]

theorem row_mapper_totality_witness :
    (row_to_features [("Gender", Cell.na), ("GDP", Cell.txt "abc" FloatParse.err)]).length
      = feature_names.length ∧
    (∀ v ∈ row_to_features [("Gender", Cell.na), ("GDP", Cell.txt "abc" FloatParse.err)],
      ∃ q, v = PyFloat.fin q) ∧
    (∀ k d, (([("Gender", Cell.na), ("GDP", Cell.txt "abc" FloatParse.err)] : Row).lookup k
          = none ∨
        ([("Gender", Cell.na), ("GDP", Cell.txt "abc" FloatParse.err)] : Row).lookup k
          = some Cell.na ∨
        (∃ s, ([("Gender", Cell.na), ("GDP", Cell.txt "abc" FloatParse.err)] : Row).lookup k
          = some (Cell.txt s FloatParse.err))) →
      featureOfCell [("Gender", Cell.na), ("GDP", Cell.txt "abc" FloatParse.err)] k d
        = PyFloat.fin d) :=
  row_mapper_totality _ (by decide)

/-- C9: in `_csv_to_student_fields`, a present but unparseable
'Tuition fees up to date' cell is stored as 0 (the `to_int` fallback),
while an absent column is stored as 1 (the `row.get` default); the feature
vector built by `_row_to_features` yields the default 1 (entry 14 of the
vector) in both cases. -/
theorem tuition_malformed_vs_missing (idx : ℕ) (row : Row) (s : String) :
    (row.lookup "Tuition fees up to date" = some (Cell.txt s FloatParse.err) →
      (csv_to_student_fields idx row).tuition_fees_up_to_date = 0 ∧
      (row_to_features row)[14]? = some (PyFloat.fin 1)) ∧
    (row.lookup "Tuition fees up to date" = none →
      (csv_to_student_fields idx row).tuition_fees_up_to_date = 1 ∧
      (row_to_features row)[14]? = some (PyFloat.fin 1)) := by
  have hidx : (row_to_features row)[14]? =
      some (featureOfCell row "Tuition fees up to date" 1) := by
    simp [row_to_features, List.getElem?_map, row_defaults]
  constructor
  · intro hl
    refine ⟨?_, ?_⟩
    · simp [csv_to_student_fields, intField, to_int, hl]
    · rw [hidx]; simp [featureOfCell, hl]
  · intro hl
    refine ⟨?_, ?_⟩
    · simp [csv_to_student_fields, intField, hl]
    · rw [hidx]; simp [featureOfCell, hl]

theorem tuition_malformed_vs_missing_witness :
    ((csv_to_student_fields 0
        [("Tuition fees up to date", Cell.txt "abc" FloatParse.err)]).tuition_fees_up_to_date
      = 0 ∧
     (row_to_features [("Tuition fees up to date", Cell.txt "abc" FloatParse.err)])[14]?
      = some (PyFloat.fin 1)) ∧
    ((csv_to_student_fields 0 ([] : Row)).tuition_fees_up_to_date = 1 ∧
     (row_to_features ([] : Row))[14]? = some (PyFloat.fin 1)) :=
  ⟨(tuition_malformed_vs_missing 0
      [("Tuition fees up to date", Cell.txt "abc" FloatParse.err)] "abc").1 (by decide),
   (tuition_malformed_vs_missing 0 ([] : Row) "x").2 (by decide)⟩

theorem api_features_length (data : List (String × ℚ)) :
    (api_features data).length = nFeaturesIn := by
  simp [api_features, api_defaults, api_keys, nFeaturesIn]

theorem predict_probaHigh_api_nil :
    predict probaHigh ((api_features []).map PyFloat.fin) = Except.ok (1, "High") := by
  have h := predict_map_fin probaHigh (api_features []) (api_features_length [])
  norm_num [probaHigh, risk_category_of, List.getD] at h
  exact h

/-- C10: a single-record prediction whose `student_id` is absent, or names
no persisted student, returns a score but leaves the persisted state
unchanged: no student record is updated and no notification is created,
even when the resulting category is High. -/
theorem predict_dropout_no_frame_effect (proba : List ℚ → List ℚ) (st : DBState)
    (req : ApiRequest) (p : ℚ) (c : String)
    (hpred : predict proba ((api_features req.fields).map PyFloat.fin) = Except.ok (p, c))
    (hsid : ∀ sid, req.student_id = some sid → findStudent st sid = none) :
    predict_dropout proba st req = (st, ApiResponse.success p c) := by
  simp only [predict_dropout, hpred]
  cases hs : req.student_id with
  | none => rfl
  | some sid =>
    cases he : (sid == "") with
    | true => simp [he]
    | false => simp [he, hsid sid hs]

theorem predict_dropout_no_frame_effect_witness :
    predict_dropout probaHigh stOne { fields := [], student_id := some "S999" } =
      (stOne, ApiResponse.success 1 "High") :=
  predict_dropout_no_frame_effect probaHigh stOne
    { fields := [], student_id := some "S999" } 1 "High"
    predict_probaHigh_api_nil
    (by
      intro sid h
      obtain rfl : sid = "S999" := by simpa using h.symm
      have hid : (sampleStudent.student_id == "S999") = false := by decide
      simp [findStudent, stOne, List.find?, hid])

/-- C6: when a single-record prediction names an existing student, the
alert path fires exactly when the category is High, creating one
notification per registered counselor (in account order), each carrying the
templated message that references the student's name and identifier; when
the category is not High the notification collection is unchanged. -/
theorem alert_fanout (proba : List ℚ → List ℚ) (st : DBState) (req : ApiRequest)
    (sid : String) (student : StudentRec) (p : ℚ) (c : String)
    (hpred : predict proba ((api_features req.fields).map PyFloat.fin) = Except.ok (p, c))
    (hsid : req.student_id = some sid) (hne : (sid == "") = false)
    (hfind : findStudent st sid = some student) :
    ((predict_dropout proba st req).1.notifications =
      if c = "High" then
        st.notifications ++ (counselors st).map (mkNotification student)
      else st.notifications) ∧
    ((counselors st).map (mkNotification student)).length = (counselors st).length ∧
    ((counselors st).map (mkNotification student)).map (fun n => n.counselor_id) =
      (counselors st).map (fun u => u.id) ∧
    ∀ n ∈ (counselors st).map (mkNotification student),
      n.message = "Student " ++ student.name ++ " (" ++ student.student_id ++
        ") is at HIGH risk of dropout. Immediate intervention recommended." ∧
      n.notification_type = "high_risk_alert" := by
  refine ⟨?_, by simp, by simp [mkNotification], ?_⟩
  · simp only [predict_dropout, hpred, hsid]
    by_cases hc : c = "High"
    · simp [hne, hfind, hc]
    · have hcb : (c == "High") = false := by simpa using hc
      simp [hne, hfind, hcb, hc]
  · intro n hn
    obtain ⟨u, _, rfl⟩ := List.mem_map.mp hn
    exact ⟨rfl, rfl⟩

theorem alert_fanout_witness :
    ((predict_dropout probaHigh stOne
        { fields := [], student_id := some "CSV00001" }).1.notifications =
      if "High" = "High" then
        stOne.notifications ++ (counselors stOne).map (mkNotification sampleStudent)
      else stOne.notifications) ∧
    ((counselors stOne).map (mkNotification sampleStudent)).length
      = (counselors stOne).length ∧
    ((counselors stOne).map (mkNotification sampleStudent)).map (fun n => n.counselor_id)
      = (counselors stOne).map (fun u => u.id) ∧
    ∀ n ∈ (counselors stOne).map (mkNotification sampleStudent),
      n.message = "Student " ++ sampleStudent.name ++ " (" ++ sampleStudent.student_id ++
        ") is at HIGH risk of dropout. Immediate intervention recommended." ∧
      n.notification_type = "high_risk_alert" :=
  alert_fanout probaHigh stOne { fields := [], student_id := some "CSV00001" }
    "CSV00001" sampleStudent 1 "High"
    predict_probaHigh_api_nil rfl (by decide)
    (by
      have hid : (sampleStudent.student_id == "CSV00001") = true := by decide
      simp [findStudent, stOne, List.find?, hid])

theorem row_to_features_nil :
    row_to_features [] = (row_defaults.map Prod.snd).map PyFloat.fin := rfl

theorem predict_probaHigh_row_nil :
    predict probaHigh (row_to_features []) = Except.ok (1, "High") := by
  rw [row_to_features_nil]
  have h := predict_map_fin probaHigh (row_defaults.map Prod.snd)
    (by simp [row_defaults, nFeaturesIn])
  norm_num [probaHigh, risk_category_of, List.getD] at h
  exact h

/-- C5 counterexample: importing a single row that scores High, with a
counselor account registered, emits no notification — the import loop of
`import_csv` contains no alert-dispatch step. -/
theorem import_no_alert_counterexample :
    (import_csv probaHigh stOne [[]]).1.notifications = [] ∧
    (import_csv probaHigh stOne [[]]).1.students.map (fun s => s.risk_category)
      = ["High"] ∧
    counselors stOne ≠ [] := by
  have hloop : importLoop probaHigh [(0, ([] : Row))] = Except.ok [recHigh 0] := by
    simp [importLoop, predict_probaHigh_row_nil, recHigh]
  refine ⟨?_, ?_, by decide⟩
  · simp [import_csv, hloop, stOne]
  · simp [import_csv, hloop, recHigh]

/-- C5 amended: the per-row import pipeline is RowMapper → Scorer →
accumulate; no AlertDispatcher step runs during batch import, so an import
never changes the notification collection (user accounts are untouched as
well), no matter how many rows score High. -/
theorem import_emits_no_notifications (proba : List ℚ → List ℚ) (st : DBState)
    (rows : List Row) :
    (import_csv proba st rows).1.notifications = st.notifications ∧
    (import_csv proba st rows).1.users = st.users := by
  unfold import_csv
  cases importLoop proba rows.enum <;> simp

theorem importLoop_length (proba : List ℚ → List ℚ) :
    ∀ (l : List (ℕ × Row)) (recs : List StudentRec),
      importLoop proba l = Except.ok recs → recs.length = l.length := by
  intro l
  induction l with
  | nil =>
    intro recs h
    simp [importLoop] at h
    simp [← h]
  | cons p rest ih =>
    intro recs h
    obtain ⟨idx, row⟩ := p
    unfold importLoop at h
    cases hp : predict proba (row_to_features row) with
    | error e => rw [hp] at h; simp at h
    | ok pc =>
      obtain ⟨score, cat⟩ := pc
      rw [hp] at h
      cases hl : importLoop proba rest with
      | error e => rw [hl] at h; simp at h
      | ok recs' =>
        rw [hl] at h
        simp at h
        subst h
        simp [ih recs' hl]

/-- C3: after a successful batch import of N rows the persisted student
collection holds exactly N records (the summary reports N created and 0
updated), and the resulting collection is the same whatever student records
existed before the import: the prior collection is wholly replaced, with
no per-row upsert matching. -/
theorem import_replaces_collection (proba : List ℚ → List ℚ) (st : DBState)
    (rows : List Row) (summary : ImportSummary)
    (h : (import_csv proba st rows).2 = Except.ok summary) :
    (import_csv proba st rows).1.students.length = rows.length ∧
    summary.created = rows.length ∧ summary.updated = 0 ∧
    ∀ prior : List StudentRec,
      (import_csv proba { st with students := prior } rows).1.students =
        (import_csv proba st rows).1.students := by
  cases hl : importLoop proba rows.enum with
  | error e =>
    simp only [import_csv, hl] at h
    simp at h
  | ok recs =>
    have hlen : recs.length = rows.length := by
      have := importLoop_length proba rows.enum recs hl
      simpa [List.enum_length] using this
    simp only [import_csv, hl] at h
    simp at h
    refine ⟨by simp [import_csv, hl, hlen], ?_, ?_, ?_⟩
    · rw [← h]; simpa using hlen
    · rw [← h]
    · intro prior
      simp [import_csv, hl]

theorem csv_default_id_0 : csv_default_id 0 = "CSV00001" := by decide

theorem csv_default_id_1 : csv_default_id 1 = "CSV00002" := by decide

theorem csv_default_name_0 : csv_default_name 0 = "Student 1" := by decide

theorem csv_default_name_1 : csv_default_name 1 = "Student 2" := by decide

theorem import_two_empty_rows_summary :
    (import_csv probaHigh stOne [[], []]).2 = Except.ok summaryTwo := by
  have henum : ([[], []] : List Row).enum = [(0, ([] : Row)), (1, ([] : Row))] := rfl
  have hloop : importLoop probaHigh [(0, ([] : Row)), (1, ([] : Row))]
      = Except.ok [recHigh 0, recHigh 1] := by
    simp [importLoop, predict_probaHigh_row_nil, recHigh]
  simp [import_csv, henum, hloop, stOne, summaryTwo, recHigh, csv_to_student_fields,
        strField, List.lookup, csv_default_id_0, csv_default_id_1,
        csv_default_name_0, csv_default_name_1]

theorem import_replaces_collection_witness :
    (import_csv probaHigh stOne [[], []]).1.students.length
      = ([[], []] : List Row).length ∧
    summaryTwo.created = ([[], []] : List Row).length ∧ summaryTwo.updated = 0 ∧
    ∀ prior : List StudentRec,
      (import_csv probaHigh { stOne with students := prior } [[], []]).1.students =
        (import_csv probaHigh stOne [[], []]).1.students :=
  import_replaces_collection probaHigh stOne [[], []] summaryTwo
    import_two_empty_rows_summary

theorem digitChar_toNat {d : ℕ} (h : d < 10) : (digitChar d).toNat = 48 + d := by
  interval_cases d <;> decide

theorem decodeDigits_append (acc : ℕ) (l1 l2 : List Char) :
    decodeDigits acc (l1 ++ l2) = decodeDigits (decodeDigits acc l1) l2 := by
  induction l1 generalizing acc with
  | nil => rfl
  | cons c rest ih =>
    show decodeDigits (10 * acc + (c.toNat - 48)) (rest ++ l2)
      = decodeDigits (decodeDigits (10 * acc + (c.toNat - 48)) rest) l2
    exact ih _

theorem natCharsAux_zero (n : ℕ) : natCharsAux 0 n = [] := rfl

theorem natCharsAux_succ (fuel n : ℕ) :
    natCharsAux (fuel + 1) n =
      if n = 0 then [] else natCharsAux fuel (n / 10) ++ [digitChar (n % 10)] := rfl

theorem decodeDigits_nil (acc : ℕ) : decodeDigits acc [] = acc := rfl

theorem decodeDigits_cons (acc : ℕ) (c : Char) (rest : List Char) :
    decodeDigits acc (c :: rest) = decodeDigits (10 * acc + (c.toNat - 48)) rest := rfl

theorem decodeDigits_natCharsAux :
    ∀ (fuel n : ℕ), n ≤ fuel → ∀ acc,
      decodeDigits acc (natCharsAux fuel n) =
        acc * 10 ^ (natCharsAux fuel n).length + n := by
  intro fuel
  induction fuel with
  | zero =>
    intro n hn acc
    obtain rfl : n = 0 := Nat.le_zero.mp hn
    rw [natCharsAux_zero, decodeDigits_nil]
    simp
  | succ fuel ih =>
    intro n hn acc
    by_cases h0 : n = 0
    · subst h0
      rw [natCharsAux_succ, if_pos rfl, decodeDigits_nil]
      simp
    · have hdiv : n / 10 ≤ fuel := by
        have h1 : n / 10 < n := Nat.div_lt_self (Nat.pos_of_ne_zero h0) (by norm_num)
        omega
      have hmod : (digitChar (n % 10)).toNat = 48 + n % 10 :=
        digitChar_toNat (Nat.mod_lt n (by norm_num))
      rw [natCharsAux_succ, if_neg h0, decodeDigits_append, ih (n / 10) hdiv acc,
        decodeDigits_cons, decodeDigits_nil, hmod,
        List.length_append, List.length_cons, List.length_nil]
      have h48 : 48 + n % 10 - 48 = n % 10 := by omega
      rw [h48]
      calc 10 * (acc * 10 ^ (natCharsAux fuel (n / 10)).length + n / 10) + n % 10
          = acc * 10 ^ ((natCharsAux fuel (n / 10)).length + (0 + 1))
            + (10 * (n / 10) + n % 10) := by ring
        _ = acc * 10 ^ ((natCharsAux fuel (n / 10)).length + (0 + 1)) + n := by
            rw [Nat.div_add_mod]

theorem decodeDigits_replicate_zero (k : ℕ) (l : List Char) :
    decodeDigits 0 (List.replicate k '0' ++ l) = decodeDigits 0 l := by
  induction k with
  | zero => simp
  | succ k ih =>
    rw [List.replicate_succ, List.cons_append]
    show decodeDigits (10 * 0 + ('0'.toNat - 48)) _ = _
    have hz : 10 * 0 + ('0'.toNat - 48) = 0 := by decide
    rw [hz]
    exact ih

theorem decode_zfill_natChars (n : ℕ) :
    decodeDigits 0 (zfill 5 (natChars n)) = n := by
  unfold zfill
  rw [decodeDigits_replicate_zero]
  have h := decodeDigits_natCharsAux n n le_rfl 0
  simpa [natChars] using h

theorem csv_default_id_injective : Function.Injective csv_default_id := by
  intro i j h
  have hdata : ('C' :: 'S' :: 'V' :: zfill 5 (natChars (i + 1)))
      = ('C' :: 'S' :: 'V' :: zfill 5 (natChars (j + 1))) := congrArg String.data h
  simp only [List.cons.injEq, true_and] at hdata
  have hd := congrArg (decodeDigits 0) hdata
  rw [decode_zfill_natChars, decode_zfill_natChars] at hd
  omega

theorem importLoop_ids (proba : List ℚ → List ℚ) :
    ∀ (l : List (ℕ × Row)) (recs : List StudentRec),
      importLoop proba l = Except.ok recs →
      recs.map (fun r => r.student_id) =
        l.map (fun p => strField p.2 "student_id" (csv_default_id p.1)) := by
  intro l
  induction l with
  | nil => intro recs h; simp [importLoop] at h; simp [← h]
  | cons p rest ih =>
    intro recs h
    obtain ⟨idx, row⟩ := p
    unfold importLoop at h
    cases hp : predict proba (row_to_features row) with
    | error e => rw [hp] at h; simp at h
    | ok pc =>
      obtain ⟨score, cat⟩ := pc
      rw [hp] at h
      cases hl : importLoop proba rest with
      | error e => rw [hl] at h; simp at h
      | ok recs' =>
        rw [hl] at h
        simp at h
        subst h
        simp [ih recs' hl, csv_to_student_fields]

/-- C7: for every imported file that contains neither a `student_id` nor a
`name` column, identity synthesis assigns the deterministic placeholders
"CSV00001", "CSV00002", … — the prefix "CSV" plus the 1-based zero-padded
row ordinal — in row order, and these identifiers are pairwise distinct
within the import. -/
theorem import_identity_synthesis (proba : List ℚ → List ℚ) (st : DBState)
    (rows : List Row) (summary : ImportSummary)
    (hno : ∀ row ∈ rows, row.lookup "student_id" = none ∧ row.lookup "name" = none)
    (h : (import_csv proba st rows).2 = Except.ok summary) :
    (import_csv proba st rows).1.students.map (fun s => s.student_id) =
      (List.range rows.length).map csv_default_id ∧
    ((import_csv proba st rows).1.students.map (fun s => s.student_id)).Nodup ∧
    csv_default_id 0 = "CSV00001" ∧ csv_default_id 1 = "CSV00002" := by
  cases hl : importLoop proba rows.enum with
  | error e => simp only [import_csv, hl] at h; simp at h
  | ok recs =>
    have hids := importLoop_ids proba rows.enum recs hl
    have hmap : rows.enum.map (fun p => strField p.2 "student_id" (csv_default_id p.1))
        = rows.enum.map (fun p => csv_default_id p.1) := by
      apply List.map_congr_left
      intro p hp
      have hrow : p.2 ∈ rows := by
        have := List.mem_map_of_mem Prod.snd hp
        rwa [List.enum_map_snd] at this
      simp [strField, (hno p.2 hrow).1]
    have hfst : rows.enum.map (fun p => csv_default_id p.1)
        = (List.range rows.length).map csv_default_id := by
      rw [show (fun p : ℕ × Row => csv_default_id p.1) = csv_default_id ∘ Prod.fst
        from rfl, ← List.map_map, List.enum_map_fst]
    have hstudents : (import_csv proba st rows).1.students = recs := by
      simp [import_csv, hl]
    rw [hstudents, hids, hmap, hfst]
    exact ⟨rfl, List.Nodup.map csv_default_id_injective (List.nodup_range _),
      csv_default_id_0, csv_default_id_1⟩

theorem import_identity_synthesis_witness :
    (import_csv probaHigh stOne [[], []]).1.students.map (fun s => s.student_id) =
      (List.range ([[], []] : List Row).length).map csv_default_id ∧
    ((import_csv probaHigh stOne [[], []]).1.students.map (fun s => s.student_id)).Nodup ∧
    csv_default_id 0 = "CSV00001" ∧ csv_default_id 1 = "CSV00002" :=
  import_identity_synthesis probaHigh stOne [[], []] summaryTwo
    (by intro row hrow; fin_cases hrow <;> exact ⟨rfl, rfl⟩)
    import_two_empty_rows_summary
